import Mathlib

/-!
Shallow embedding of the FluidSynth protocol client (`fluidsynthgui.py`,
class `FluidSynthApi`).  Engine responses are passed in as explicit string
parameters; commands sent to the engine are returned as traces.  Python
numbers are modelled as `Int`/`ℚ`, Python lists as `List`, the
`fontFilesLoaded` dict as an association list.
-/

/-- Split a character list at every separator (structurally recursive, so
the kernel can evaluate it; `String.split` is defined by well-founded
recursion and cannot be evaluated by `decide`). -/
def splitChars (p : Char → Bool) : List Char → List (List Char)
  | [] => [[]]
  | c :: cs =>
      match splitChars p cs with
      | [] => [[c]]
      | t :: ts => if p c then [] :: t :: ts else (c :: t) :: ts

/-- Python whitespace characters recognised by `str.split()`. -/
def isPySpace (c : Char) : Bool :=
  c = ' ' || c = '\t' || c = '\n' || c = '\r' || c = '\x0b' || c = '\x0c'

/-- Python `str.split()` with no arguments: split on runs of whitespace,
dropping empty tokens. -/
def pySplit (s : String) : List String :=
  ((splitChars isPySpace s.toList).map String.mk).filter (fun t => t ≠ "")

/-- Python `str.split(sep)` for a one-character separator (empty pieces
kept, as in Python). -/
def pySplitSep (sep : Char) (s : String) : List String :=
  (splitChars (fun c => c = sep) s.toList).map String.mk

/-- Python `str.splitlines()`: split on line terminators.  (A `"\r\n"` pair
yields one extra empty line here; every consumer below skips empty lines, so
the difference is unobservable.) -/
def pySplitLines (s : String) : List String :=
  (splitChars (fun c => c = '\n' || c = '\r') s.toList).map String.mk

/-- Python `str.isdigit()` (ASCII): nonempty and all digits. -/
def pyIsDigit (s : String) : Bool :=
  s ≠ "" && s.toList.all Char.isDigit

/-- Numeric value of a digit string. -/
def digitsVal (l : List Char) : Nat :=
  l.foldl (fun a c => a * 10 + (c.toNat - 48)) 0

/-- Python `int(s)` on a whitespace-free token: optional sign then digits. -/
def pyInt? (s : String) : Option Int :=
  match s.toList with
  | [] => none
  | '-' :: rest =>
      if rest ≠ [] && rest.all Char.isDigit then some (-(digitsVal rest : Int)) else none
  | '+' :: rest =>
      if rest ≠ [] && rest.all Char.isDigit then some (digitsVal rest : Int) else none
  | l =>
      if l.all Char.isDigit then some (digitsVal l : Int) else none

/-- Mantissa of a Python float literal: digits with an optional decimal
point (`"2"`, `"2.0"`, `".5"`, `"2."`).  Exponent forms do not occur in the
engine responses modelled here. -/
def pyFloatMant (l : List Char) : Option ℚ :=
  match splitChars (fun c => c = '.') l with
  | [ip] =>
      if ip ≠ [] && ip.all Char.isDigit then some (digitsVal ip : ℚ) else none
  | [ip, fp] =>
      if (ip ≠ [] || fp ≠ []) && ip.all Char.isDigit && fp.all Char.isDigit then
        some ((digitsVal ip : ℚ) + (digitsVal fp : ℚ) / (10 ^ fp.length))
      else none
  | _ => none

/-- Python `float(s)` on a whitespace-free token. -/
def pyFloat? (s : String) : Option ℚ :=
  match s.toList with
  | '-' :: rest => (pyFloatMant rest).map (fun x => -x)
  | '+' :: rest => pyFloatMant rest
  | l => pyFloatMant l

/-- Python list item assignment `l[i] = v` with negative-index semantics:
valid for `-len l ≤ i < len l`, `none` models an `IndexError`. -/
def pyListSet {α : Type} (l : List α) (i : Int) (v : α) : Option (List α) :=
  let n : Int := l.length
  let j : Int := if i < 0 then i + n else i
  if 0 ≤ j ∧ j < n then some (l.set j.toNat v) else none

/-- Python dict membership `k in m`. -/
def dictHas (m : List (Int × String)) (k : Int) : Bool :=
  m.any (fun p => p.1 = k)

/-- Python dict deletion `del m[k]` (the caller checks presence; on an
absent key the source raises `KeyError`, modelled at the call sites). -/
def dictDel (m : List (Int × String)) (k : Int) : List (Int × String) :=
  m.filter (fun p => p.1 ≠ k)

/-- Python dict assignment `m[k] = v`. -/
def dictInsert (m : List (Int × String)) (k : Int) (v : String) : List (Int × String) :=
  if dictHas m k then m.map (fun p => if p.1 = k then (k, v) else p)
  else m ++ [(k, v)]

/-- The mutable bookkeeping fields of `FluidSynthApi` (its `__init__`). -/
structure ApiState where
  fontFilesLoaded : List (Int × String)
  fontsInUse : List Int
  instrumentsInUse : List String
  selectedChannel : Int
  activeChannel : Int
  activeSoundFontId : Int
  activeSoundFontFile : String
  activeInstrument : String
deriving DecidableEq, Repr

/-- Initial state set up by `FluidSynthApi.__init__`. -/
def initState : ApiState :=
  { fontFilesLoaded := []
    fontsInUse := List.replicate 16 (-1)
    instrumentsInUse := List.replicate 16 ""
    selectedChannel := 1
    activeChannel := 1
    activeSoundFontId := -1
    activeSoundFontFile := ""
    activeInstrument := "" }

/-- `FluidSynthApi.setSelectedChannel`: stores `int(channel)` with no range
validation. -/
def setSelectedChannel (st : ApiState) (channel : Int) : ApiState :=
  { st with selectedChannel := channel }

/-- `FluidSynthApi.getSelectedChannel0`: 0-based channel for the engine. -/
def getSelectedChannel0 (st : ApiState) : Int :=
  st.selectedChannel - 1

/-- `FluidSynthApi.getValue`: last whitespace-delimited token of the engine
response to `get key`, or `""` when the response has no tokens. -/
def getValue (response : String) : String :=
  match (pySplit response).getLast? with
  | some t => t
  | none => ""

/-- `FluidSynthApi.getNumValue`: `float(getValue(key))`; `none` models the
`ValueError` that an unparseable token raises. -/
def getNumValue (response : String) : Option ℚ :=
  pyFloat? (getValue response)

/-- The two packets issued by `FluidSynthApi.setGain`: the primary
`gain value` command and the `set synth.gain <2*value>` variable write. -/
structure GainEmit where
  primary : ℚ
  varKey : String
  varVal : ℚ
deriving DecidableEq, Repr

/-- `FluidSynthApi.setGain`: sends `gain value` (non-blocking) and then
`set synth.gain <float(value)*2>`. -/
def setGain (value : ℚ) : GainEmit :=
  { primary := value, varKey := "synth.gain", varVal := value * 2 }

/-- `FluidSynthApi.getGain`, translated statement by statement: the body
evaluates `self.getNumValue('synth.gain') / 2` and discards it — there is
no `return` statement, so Python returns `None` (modelled as `Except.ok
none`); an unparseable variable value raises out of the function
(`Except.error`). -/
def getGain (response : String) : Except Unit (Option ℚ) :=
  match getNumValue response with
  | none => Except.error ()
  | some x =>
      let _halved := x / 2
      Except.ok none

/-- The value of the expression `self.getNumValue('synth.gain') / 2` that
`getGain`'s body computes and discards (the value the spec says is
returned). -/
def getGainComputed (response : String) : Option ℚ :=
  (getNumValue response).map (fun x => x / 2)

/-- Result of `FluidSynthApi.loadSoundFont`: returned id (−1 on failure),
the state after the call, and the packets sent. -/
structure LoadResult where
  id : Int
  st : ApiState
  cmds : List String
deriving DecidableEq, Repr

/-- The digit-only tokens of a load response, as integers
(`[int(s) for s in data.split() if s.isdigit()]`). -/
def digitTokens (response : String) : List Int :=
  ((pySplit response).filter pyIsDigit).map (fun s => (digitsVal s.toList : Int))

/-- `FluidSynthApi.loadSoundFont`: sends `load "<file>"`, takes the last
digit-only token of the response as the assigned id, records id→file and
the active cursor; with no digit token, returns −1 and leaves the state
unchanged. -/
def loadSoundFont (st : ApiState) (file : String) (response : String) : LoadResult :=
  let cmds := ["load \"" ++ file ++ "\""]
  match (digitTokens response).getLast? with
  | some id =>
      { id := id
        st := { st with
                  fontFilesLoaded := dictInsert st.fontFilesLoaded id file
                  activeSoundFontId := id
                  activeSoundFontFile := file }
        cmds := cmds }
  | none => { id := -1, st := st, cmds := cmds }

/-- One line of the `fonts` listing, as processed by the loop body of
`FluidSynthApi.getSoundFonts`: `none` when the line contributes no id
(empty line ⇒ `IndexError` caught, header line `ID …` skipped, or
`int(parts[0])` fails ⇒ caught with a warning). -/
def parseFontLine (line : String) : Option Int :=
  match pySplit line with
  | [] => none
  | t :: _ => if t = "ID" then none else pyInt? t

/-- The accumulation loop of `FluidSynthApi.getSoundFonts`. -/
def fontsLoop : List String → List Int → List Int
  | [], acc => acc
  | line :: rest, acc =>
      match parseFontLine line with
      | some n => fontsLoop rest (acc ++ [n])
      | none => fontsLoop rest acc

/-- `FluidSynthApi.getSoundFonts`: one id per parseable non-header line of
the `fonts` response. -/
def getSoundFonts (response : String) : List Int :=
  fontsLoop (pySplitLines response) []

/-- Result of `FluidSynthApi.unloadSoundFonts`: the state after the call
and the `unload` packets sent, each paired with the id it names. -/
structure UnloadResult where
  st : ApiState
  cmds : List (Int × String)
deriving DecidableEq, Repr

/-- The loop of `FluidSynthApi.unloadSoundFonts` over the engine's font
list: ids present in `fontsInUse` are skipped; otherwise `unload id` is
sent (non-blocking) and the id is deleted from `fontFilesLoaded`.  When
the id is absent from the dict, `del` raises `KeyError` after the packet
was already sent, and the outer handler aborts the loop. -/
def unloadLoop (inUse : List Int) :
    List Int → List (Int × String) → List (Int × String) × List (Int × String)
  | [], m => (m, [])
  | id :: rest, m =>
      if id ∈ inUse then unloadLoop inUse rest m
      else
        let packet := (id, "unload " ++ toString id)
        if dictHas m id then
          let r := unloadLoop inUse rest (dictDel m id)
          (r.1, packet :: r.2)
        else (m, [packet])

/-- `FluidSynthApi.unloadSoundFonts`: parses the `fonts` response and
unloads every listed id not referenced by any channel slot. -/
def unloadSoundFonts (st : ApiState) (fontsResponse : String) : UnloadResult :=
  let r := unloadLoop st.fontsInUse (getSoundFonts fontsResponse) st.fontFilesLoaded
  { st := { st with fontFilesLoaded := r.1 }, cmds := r.2 }

/-- How a call to `FluidSynthApi.setInstrument` ends: the blank-name
exception propagates (`raised`), the inactive-bank guard returns `''`
(`emptyStr`), a caught exception returns `False` (`failed`), or the method
returns the transaction result (`ok`). -/
inductive SetInstrResult where
  | raised
  | emptyStr
  | failed
  | ok
deriving DecidableEq, Repr

/-- Result of `FluidSynthApi.setInstrument`: outcome, state after the call,
and the packets sent. -/
structure SelectResult where
  res : SetInstrResult
  st : ApiState
  cmds : List String
deriving DecidableEq, Repr

/-- `FluidSynthApi.setInstrument`, translated statement by statement.
Mutations are sequenced as in the source: `activeInstrument` is assigned
before the two channel-slot writes, each of which can raise `IndexError`
for an out-of-range 0-based channel, aborting the rest. -/
def setInstrument (st : ApiState) (instrumentName : String) : SelectResult :=
  if instrumentName = "" then { res := .raised, st := st, cmds := [] }
  else if st.activeSoundFontId < 0 then { res := .emptyStr, st := st, cmds := [] }
  else
    match pySplit instrumentName with
    | [] => { res := .failed, st := st, cmds := [] }
    | p0 :: _ =>
      match pySplitSep '-' p0 with
      | [] => { res := .failed, st := st, cmds := [] }
      | [_] => { res := .failed, st := st, cmds := [] }
      | bank :: prog :: _ =>
        let chan0 : Int := getSelectedChannel0 st
        let font : Int := st.activeSoundFontId
        let cmds := ["select " ++ toString chan0 ++ " " ++ toString font ++ " "
                       ++ bank ++ " " ++ prog]
        let st1 := { st with activeInstrument := instrumentName }
        match pyListSet st1.fontsInUse chan0 font with
        | none => { res := .failed, st := st1, cmds := cmds }
        | some fu =>
          let st2 := { st1 with fontsInUse := fu }
          match pyListSet st2.instrumentsInUse chan0 instrumentName with
          | none => { res := .failed, st := st2, cmds := cmds }
          | some iu =>
            { res := .ok
              st := { st2 with
                        instrumentsInUse := iu
                        activeChannel := st.selectedChannel }
              cmds := cmds }

/-- Is the pattern a prefix of the text? -/
def matchHead : List Char → List Char → Bool
  | [], _ => true
  | _ :: _, [] => false
  | p :: ps, c :: cs => p = c && matchHead ps cs

/-- Python `data.find(pat)`: index of the first occurrence of `pat`, or
`none` (Python −1). -/
def findSub (pat : List Char) : List Char → Option Nat
  | [] => if matchHead pat [] then some 0 else none
  | c :: cs =>
      if matchHead pat (c :: cs) then some 0
      else (findSub pat cs).map (fun n => n + 1)

/-- The sentinel sequence `"\n" + self.eof + "\n"` scanned for by
`FluidSynthApi.read` (with `self.eof = "."`). -/
def eofMarker : List Char := ['\n', '.', '\n']

/-- The read loop of `FluidSynthApi.read`.  `chunks` are the successive
`recv` results; an exhausted list models the read timeout exception, on
which the data accumulated so far is returned.  Returns the result and the
number of reads performed.  The fuel argument is the source's
`max_reads = 1000000` bound. -/
def readLoop : Nat → List (List Char) → List Char → List Char × Nat
  | 0, _, data => (data, 0)
  | _ + 1, [], data => (data, 0)
  | fuel + 1, c :: cs, data =>
      let d := data ++ c
      match findSub eofMarker d with
      | some pos => (d.take pos, 1)
      | none =>
          let r := readLoop fuel cs d
          (r.1, r.2 + 1)

/-- `FluidSynthApi.read`: accumulate socket chunks until the cumulative
buffer contains the sentinel, bounded by 1,000,000 reads. -/
def readSocket (chunks : List (List Char)) : List Char × Nat :=
  readLoop 1000000 chunks []

/-- One bookkeeping-relevant API call, with the engine response it
observes. -/
inductive Op where
  | load (file response : String)
  | select (name : String)
  | unload (fontsResponse : String)
deriving DecidableEq, Repr

/-- Whether an `Op` is an `unloadSoundFonts` call. -/
def Op.isUnload : Op → Bool
  | .unload _ => true
  | _ => false

/-- State transition of one API call (command traces discarded). -/
def step (st : ApiState) : Op → ApiState
  | .load file response => (loadSoundFont st file response).st
  | .select name => (setInstrument st name).st
  | .unload fontsResponse => (unloadSoundFonts st fontsResponse).st

/-- Run a sequence of API calls from a starting state. -/
def run (st : ApiState) (ops : List Op) : ApiState :=
  ops.foldl step st


/-! ### Helper lemmas -/

theorem dictHas_insert_self (m : List (Int × String)) (k : Int) (v : String) :
    dictHas (dictInsert m k v) k = true := by
  unfold dictInsert
  by_cases h : dictHas m k = true
  · rw [if_pos h]
    unfold dictHas at h ⊢
    simp only [List.any_eq_true, decide_eq_true_eq] at h ⊢
    obtain ⟨p, hp, hk⟩ := h
    refine ⟨(k, v), List.mem_map.mpr ⟨p, hp, ?_⟩, rfl⟩
    simp [hk]
  · rw [if_neg h]
    unfold dictHas
    simp

theorem dictHas_insert_of_has (m : List (Int × String)) (k k' : Int) (v : String)
    (h : dictHas m k' = true) : dictHas (dictInsert m k v) k' = true := by
  unfold dictInsert
  by_cases hk : dictHas m k = true
  · rw [if_pos hk]
    simp only [dictHas, List.any_eq_true, decide_eq_true_eq] at h ⊢
    obtain ⟨p, hp, hpk⟩ := h
    refine ⟨if p.1 = k then (k, v) else p, List.mem_map.mpr ⟨p, hp, rfl⟩, ?_⟩
    by_cases hc : p.1 = k
    · rw [if_pos hc]
      omega
    · rw [if_neg hc]
      exact hpk
  · rw [if_neg hk]
    simp only [dictHas, List.any_eq_true, decide_eq_true_eq] at h ⊢
    obtain ⟨p, hp, hpk⟩ := h
    exact ⟨p, List.mem_append_left _ hp, hpk⟩

theorem dictHas_del_of_ne (m : List (Int × String)) (k k' : Int) (hne : k' ≠ k)
    (h : dictHas m k' = true) : dictHas (dictDel m k) k' = true := by
  simp only [dictHas, dictDel, List.any_eq_true, decide_eq_true_eq] at h ⊢
  obtain ⟨p, hp, hpk⟩ := h
  refine ⟨p, List.mem_filter.mpr ⟨hp, ?_⟩, hpk⟩
  simp [hpk, hne]

theorem mem_of_pyListSet {α : Type} {l fu : List α} {i : Int} {v : α}
    (h : pyListSet l i v = some fu) : ∀ a ∈ fu, a ∈ l ∨ a = v := by
  simp only [pyListSet] at h
  split_ifs at h
  all_goals
    intro a ha
    rw [← Option.some.inj h] at ha
    exact List.mem_or_eq_of_mem_set ha

theorem pyListSet_inrange {α : Type} (l : List α) (i : Int) (v : α)
    (h0 : 0 ≤ i) (h1 : i < (l.length : Int)) :
    pyListSet l i v = some (l.set i.toNat v) := by
  simp only [pyListSet]
  rw [if_neg (not_lt.mpr h0)]
  rw [if_pos ⟨h0, h1⟩]

theorem fontsLoop_eq (l : List String) :
    ∀ acc, fontsLoop l acc = acc ++ l.filterMap parseFontLine := by
  induction l with
  | nil => intro acc; simp [fontsLoop]
  | cons line rest ih =>
      intro acc
      cases h : parseFontLine line with
      | none => simp [fontsLoop, h, ih]
      | some n => simp [fontsLoop, h, ih]

theorem readLoop_reads_le : ∀ fuel chunks data, (readLoop fuel chunks data).2 ≤ fuel := by
  intro fuel
  induction fuel with
  | zero => intro chunks data; simp [readLoop]
  | succ f ih =>
      intro chunks data
      cases chunks with
      | nil => simp [readLoop]
      | cons c cs =>
          simp only [readLoop]
          cases h : findSub eofMarker (data ++ c) with
          | some pos => simp [h]
          | none =>
              simp only [h]
              exact Nat.succ_le_succ (ih cs (data ++ c))

theorem matchHead_append (p : List Char) :
    ∀ l t, matchHead p l = true → matchHead p (l ++ t) = true := by
  induction p with
  | nil => intro l t _; rfl
  | cons a ps ih =>
      intro l t h
      cases l with
      | nil => exact absurd h (by simp [matchHead])
      | cons c cs =>
          simp only [matchHead, Bool.and_eq_true] at h ⊢
          exact ⟨h.1, ih cs t h.2⟩

theorem findSub_isSome_append (pat : List Char) :
    ∀ s t, (findSub pat s).isSome → (findSub pat (s ++ t)).isSome := by
  intro s
  induction s with
  | nil =>
      intro t h
      by_cases hm : matchHead pat [] = true
      · cases pat with
        | nil =>
            cases t with
            | nil => simp [findSub, matchHead]
            | cons c cs => simp [findSub, matchHead]
        | cons a ps => exact absurd hm (by simp [matchHead])
      · simp only [findSub] at h
        rw [if_neg hm] at h
        exact absurd h (by simp)
  | cons c cs ih =>
      intro t h
      rw [List.cons_append]
      simp only [findSub] at h ⊢
      by_cases hm2 : matchHead pat (c :: (cs ++ t)) = true
      · rw [if_pos hm2]
        rfl
      · rw [if_neg hm2]
        by_cases hm : matchHead pat (c :: cs) = true
        · exact absurd (matchHead_append pat (c :: cs) t hm)
            (by rw [List.cons_append]; exact fun hx => hm2 hx)
        · rw [if_neg hm] at h
          cases hfs : findSub pat cs with
          | none => rw [hfs] at h; exact absurd h (by simp)
          | some n =>
              have hsome := ih t (by rw [hfs]; rfl)
              cases hft : findSub pat (cs ++ t) with
              | none => rw [hft] at hsome; exact absurd hsome (by simp)
              | some m => rfl

theorem readLoop_no_sentinel :
    ∀ (chunks : List (List Char)) (fuel : Nat) (data : List Char),
      chunks.length ≤ fuel →
      findSub eofMarker (data ++ chunks.flatten) = none →
      readLoop fuel chunks data = (data ++ chunks.flatten, chunks.length) := by
  intro chunks
  induction chunks with
  | nil =>
      intro fuel data _ _
      cases fuel with
      | zero => simp [readLoop]
      | succ f => simp [readLoop]
  | cons c cs ih =>
      intro fuel data hlen hnone
      cases fuel with
      | zero => exact absurd hlen (by simp)
      | succ f =>
          simp only [readLoop]
          have hd : findSub eofMarker (data ++ c) = none := by
            cases hfd : findSub eofMarker (data ++ c) with
            | none => rfl
            | some p =>
                have hs : (findSub eofMarker ((data ++ c) ++ cs.flatten)).isSome := by
                  exact findSub_isSome_append eofMarker (data ++ c) cs.flatten
                    (by rw [hfd]; rfl)
                rw [List.append_assoc] at hs
                rw [show data ++ (c ++ cs.flatten) = data ++ (c :: cs).flatten by
                      simp [List.flatten]] at hs
                rw [hnone] at hs
                exact absurd hs (by simp)
          rw [hd]
          have hrec := ih f (data ++ c) (by simpa using hlen)
            (by rw [List.append_assoc]
                rw [show data ++ (c ++ cs.flatten) = data ++ (c :: cs).flatten by
                      simp [List.flatten]]
                exact hnone)
          rw [hrec]
          simp [List.flatten, List.append_assoc]

theorem unloadLoop_spec (inUse : List Int) :
    ∀ (ids : List Int) (m : List (Int × String)),
      (∀ id ∈ inUse, ∀ e ∈ (unloadLoop inUse ids m).2, e.1 ≠ id) ∧
      (∀ id ∈ inUse, dictHas m id = true →
        dictHas (unloadLoop inUse ids m).1 id = true) ∧
      (∀ e ∈ (unloadLoop inUse ids m).2,
        e.2 = "unload " ++ toString e.1 ∧ e.1 ∉ inUse) := by
  intro ids
  induction ids with
  | nil =>
      intro m
      refine ⟨?_, ?_, ?_⟩
      · intro id _ e he
        exact absurd he (by simp [unloadLoop])
      · intro id _ h
        simpa [unloadLoop] using h
      · intro e he
        exact absurd he (by simp [unloadLoop])
  | cons id rest ih =>
      intro m
      by_cases hin : id ∈ inUse
      · simpa [unloadLoop, hin] using ih m
      · by_cases hhas : dictHas m id = true
        · have ihd := ih (dictDel m id)
          refine ⟨?_, ?_, ?_⟩
          · intro id' hid' e he
            simp only [unloadLoop, if_neg hin, hhas, if_pos] at he
            rcases List.mem_cons.mp he with rfl | htail
            · intro hc
              exact hin (by rw [show id = id' from hc]; exact hid')
            · exact ihd.1 id' hid' e htail
          · intro id' hid' hm
            simp only [unloadLoop, if_neg hin, hhas, if_pos]
            exact ihd.2.1 id' hid'
              (dictHas_del_of_ne m id id' (fun hc => hin (hc ▸ hid')) hm)
          · intro e he
            simp only [unloadLoop, if_neg hin, hhas, if_pos] at he
            rcases List.mem_cons.mp he with rfl | htail
            · exact ⟨rfl, hin⟩
            · exact ihd.2.2 e htail
        · refine ⟨?_, ?_, ?_⟩
          · intro id' hid' e he
            simp only [unloadLoop, if_neg hin, hhas] at he
            simp only [Bool.false_eq_true, if_false, List.mem_singleton] at he
            subst he
            intro hc
            exact hin (by rw [show id = id' from hc]; exact hid')
          · intro id' hid' hm
            simp only [unloadLoop, if_neg hin, hhas]
            simpa using hm
          · intro e he
            simp only [unloadLoop, if_neg hin, hhas] at he
            simp only [Bool.false_eq_true, if_false, List.mem_singleton] at he
            subst he
            exact ⟨rfl, hin⟩

/-- The claimed channel/bank-map invariant: every channel slot is
unassigned (−1) or holds a key of the loaded-bank map. -/
def BankInv (st : ApiState) : Prop :=
  ∀ id ∈ st.fontsInUse, id = -1 ∨ dictHas st.fontFilesLoaded id = true

/-- Auxiliary invariant: the active-bank cursor is unset or a key of the
loaded-bank map. -/
def CursorInv (st : ApiState) : Prop :=
  st.activeSoundFontId = -1 ∨ dictHas st.fontFilesLoaded st.activeSoundFontId = true

theorem load_preserves_inv (st : ApiState) (file response : String)
    (hb : BankInv st) (hc : CursorInv st) :
    BankInv (loadSoundFont st file response).st ∧
    CursorInv (loadSoundFont st file response).st := by
  unfold loadSoundFont
  cases h : (digitTokens response).getLast? with
  | none => exact ⟨hb, hc⟩
  | some id =>
      constructor
      · intro id' hid'
        rcases hb id' hid' with h1 | h1
        · exact Or.inl h1
        · exact Or.inr (dictHas_insert_of_has _ id id' file h1)
      · exact Or.inr (dictHas_insert_self _ id file)

theorem setInstrument_state_cases (st : ApiState) (name : String) :
    (setInstrument st name).st = st ∨
    (setInstrument st name).st = { st with activeInstrument := name } ∨
    (¬ st.activeSoundFontId < 0 ∧
      ∃ fu, pyListSet st.fontsInUse (getSelectedChannel0 st) st.activeSoundFontId = some fu ∧
        ((setInstrument st name).st = { st with activeInstrument := name, fontsInUse := fu } ∨
         ∃ iu, (setInstrument st name).st =
           { st with activeInstrument := name, fontsInUse := fu,
                     instrumentsInUse := iu, activeChannel := st.selectedChannel })) := by
  unfold setInstrument
  split
  · left; rfl
  · split
    · left; rfl
    · next hneg =>
      split
      · left; rfl
      · split
        · left; rfl
        · left; rfl
        · dsimp only
          split
          · right; left; rfl
          · next fu hfu =>
            split
            · right; right
              exact ⟨hneg, fu, hfu, Or.inl rfl⟩
            · next iu hiu =>
              right; right
              exact ⟨hneg, fu, hfu, Or.inr ⟨iu, rfl⟩⟩

theorem select_preserves_inv (st : ApiState) (name : String)
    (hb : BankInv st) (hc : CursorInv st) :
    BankInv (setInstrument st name).st ∧ CursorInv (setInstrument st name).st := by
  rcases setInstrument_state_cases st name with h | h | ⟨hneg, fu, hfu, h⟩
  · rw [h]; exact ⟨hb, hc⟩
  · rw [h]
    exact ⟨fun id hid => hb id hid, hc⟩
  · have hcur : dictHas st.fontFilesLoaded st.activeSoundFontId = true := by
      rcases hc with hcc | hcc
      · exact absurd (by omega : st.activeSoundFontId < 0) hneg
      · exact hcc
    have hbfu : ∀ id ∈ fu, id = -1 ∨ dictHas st.fontFilesLoaded id = true := by
      intro id hid
      rcases mem_of_pyListSet hfu id hid with hm | rfl
      · exact hb id hm
      · exact Or.inr hcur
    rcases h with h | ⟨iu, h⟩
    · rw [h]
      exact ⟨fun id hid => hbfu id hid, hc⟩
    · rw [h]
      exact ⟨fun id hid => hbfu id hid, hc⟩

theorem run_preserves_inv :
    ∀ (ops : List Op), (∀ op ∈ ops, Op.isUnload op = false) →
      ∀ st : ApiState, BankInv st → CursorInv st →
        BankInv (run st ops) ∧ CursorInv (run st ops) := by
  intro ops
  induction ops with
  | nil => intro _ st hb hc; exact ⟨hb, hc⟩
  | cons op rest ih =>
      intro h st hb hc
      have hop := h op (List.mem_cons_self op rest)
      have hrest := fun o ho => h o (List.mem_cons_of_mem op ho)
      show BankInv (run (step st op) rest) ∧ CursorInv (run (step st op) rest)
      cases op with
      | load file response =>
          have := load_preserves_inv st file response hb hc
          exact ih hrest (step st (.load file response)) this.1 this.2
      | select name =>
          have := select_preserves_inv st name hb hc
          exact ih hrest (step st (.select name)) this.1 this.2
      | unload r => exact absurd hop (by simp [Op.isUnload])

/-! ### Claim theorems -/

/-- C1: `setGain(v)` does issue `gain v` and set `synth.gain` to `2*v`, but
`getGain` computes the halved variable value and falls off the end of its
body without returning it, so a subsequent `getGain()` returns Python
`None`, not `v`.  Instantiated at `v = 1`: the variable reads back `"2.0"`,
the discarded expression evaluates to `1`, and `getGain` returns `none`. -/
theorem gain_roundtrip_missing_return :
    (∀ v : ℚ, setGain v = { primary := v, varKey := "synth.gain", varVal := v * 2 }) ∧
    getGain "synth.gain 2.0" = Except.ok none ∧
    getGainComputed "synth.gain 2.0" = some 1 := by
  refine ⟨fun v => rfl, rfl, ?_⟩
  have hnum : getNumValue "synth.gain 2.0"
      = some ((digitsVal ['2'] : ℚ) + (digitsVal ['0'] : ℚ) / 10 ^ (['0'] : List Char).length) := rfl
  unfold getGainComputed
  rw [hnum]
  have d2 : digitsVal ['2'] = 2 := by decide
  have d0 : digitsVal ['0'] = 0 := by decide
  rw [d2, d0]
  simp only [Option.map_some']
  norm_num

/-- C4: `loadSoundFont` returns the last digit-only token of the response
(e.g. `"loaded SoundFont has ID 3\n"` yields 3) and records id→path in the
bank map; with no digit-only token it returns −1 and leaves the whole state
unchanged. -/
theorem loadBank_id_parse (st : ApiState) (file response : String) :
    (digitTokens response = [] →
      loadSoundFont st file response =
        { id := -1, st := st, cmds := ["load \"" ++ file ++ "\""] }) ∧
    (∀ id : Int, (digitTokens response).getLast? = some id →
      loadSoundFont st file response =
        { id := id
          st := { st with
                    fontFilesLoaded := dictInsert st.fontFilesLoaded id file
                    activeSoundFontId := id
                    activeSoundFontFile := file }
          cmds := ["load \"" ++ file ++ "\""] }) ∧
    (loadSoundFont st file "loaded SoundFont has ID 3\n").id = 3 := by
  refine ⟨?_, ?_, ?_⟩
  · intro h
    simp [loadSoundFont, h]
  · intro id h
    simp [loadSoundFont, h]
  · rfl

/-- Closed instance of the C4 theorem: a response with no digit-only token
returns −1 and mutates nothing. -/
theorem loadBank_id_parse_witness :
    loadSoundFont initState "b.sf2" "error: no such file" =
      { id := -1, st := initState, cmds := ["load \"b.sf2\""] } :=
  (loadBank_id_parse initState "b.sf2" "error: no such file").1 (by decide)

/-- C5: `getSoundFonts` returns one id per line parsed from the line's
first token, excluding the header line (first token `ID`) and skipping
non-fatally any line whose first token fails integer parsing; the two-font
example response yields `[1, 2]`. -/
theorem listLoadedBanks_parse :
    getSoundFonts "ID  Name\n 1  /home/user/sf2/Choir.sf2\n 2  /home/user/sf2/Brass.sf2\n"
      = [1, 2] ∧
    (∀ response, getSoundFonts response =
      (pySplitLines response).filterMap parseFontLine) ∧
    parseFontLine "ID  Name" = none ∧
    parseFontLine " not-a-number  x.sf2" = none := by
  refine ⟨by decide, fun response => fontsLoop_eq _ [], by decide, by decide⟩

/-- C9: `setSelectedChannel` stores any integer unvalidated; with
`selectedChannel = 0` a `setInstrument` call still succeeds: it sends
`select -1 ...` to the engine while Python's negative indexing writes the
bank id and instrument into the last (16th) channel slot. -/
theorem channel_zero_negative_indexing :
    (∀ (st : ApiState) (c : Int), setSelectedChannel st c = { st with selectedChannel := c }) ∧
    setInstrument (setSelectedChannel { initState with activeSoundFontId := 4 } 0) "000-000 X" =
      { res := .ok
        st := { initState with
                  activeSoundFontId := 4
                  selectedChannel := 0
                  activeChannel := 0
                  activeInstrument := "000-000 X"
                  fontsInUse := (List.replicate 16 (-1 : Int)).set 15 4
                  instrumentsInUse := (List.replicate 16 "").set 15 "000-000 X" }
        cmds := ["select -1 4 000 000"] } := by
  exact ⟨fun st c => rfl, by decide⟩

/-- C10: on a successful load, `loadSoundFont` updates the active-bank
cursor (`activeSoundFontId`, `activeSoundFontFile`) and the bank map at
load time, and leaves every other field — channel tables, selected/active
channel, active instrument — unchanged. -/
theorem loadBank_cursor_frame (st : ApiState) (file response : String) (id : Int)
    (h : (digitTokens response).getLast? = some id) :
    (loadSoundFont st file response).id = id ∧
    (loadSoundFont st file response).st.activeSoundFontId = id ∧
    (loadSoundFont st file response).st.activeSoundFontFile = file ∧
    dictHas (loadSoundFont st file response).st.fontFilesLoaded id = true ∧
    (loadSoundFont st file response).st.fontsInUse = st.fontsInUse ∧
    (loadSoundFont st file response).st.instrumentsInUse = st.instrumentsInUse ∧
    (loadSoundFont st file response).st.selectedChannel = st.selectedChannel ∧
    (loadSoundFont st file response).st.activeChannel = st.activeChannel ∧
    (loadSoundFont st file response).st.activeInstrument = st.activeInstrument := by
  simp [loadSoundFont, h, dictHas_insert_self]

/-- Closed instance of the C10 theorem at the example load response. -/
theorem loadBank_cursor_frame_witness :
    (loadSoundFont initState "a.sf2" "loaded SoundFont has ID 3").st.activeSoundFontId = 3 ∧
    (loadSoundFont initState "a.sf2" "loaded SoundFont has ID 3").st.fontsInUse
      = initState.fontsInUse := by
  have h := loadBank_cursor_frame initState "a.sf2" "loaded SoundFont has ID 3" 3 (by decide)
  exact ⟨h.2.1, h.2.2.2.2.1⟩

/-- C2: for a descriptor whose leading token splits at `-` into bank and
program parts, with a nonnegative active bank id and an in-range 1-based
selected channel, `setInstrument` sends
`select <selectedChannel-1> <activeBankId> <bank> <prog>` and on success
updates the addressed channel's bank id and instrument descriptor and sets
`activeChannel` to `selectedChannel`. -/
theorem selectInstrument_compose (st : ApiState) (name p0 bank prog : String)
    (ps more : List String)
    (hsplit : pySplit name = p0 :: ps)
    (hdash : pySplitSep '-' p0 = bank :: prog :: more)
    (hactive : 0 ≤ st.activeSoundFontId)
    (hch1 : 1 ≤ st.selectedChannel) (hch2 : st.selectedChannel ≤ 16)
    (hfu : st.fontsInUse.length = 16)
    (hiu : st.instrumentsInUse.length = 16) :
    setInstrument st name =
      { res := .ok
        st := { st with
                  activeInstrument := name
                  fontsInUse := st.fontsInUse.set (st.selectedChannel - 1).toNat
                    st.activeSoundFontId
                  instrumentsInUse := st.instrumentsInUse.set (st.selectedChannel - 1).toNat
                    name
                  activeChannel := st.selectedChannel }
        cmds := ["select " ++ toString (st.selectedChannel - 1) ++ " "
                   ++ toString st.activeSoundFontId ++ " " ++ bank ++ " " ++ prog] } := by
  have hne : name ≠ "" := by
    intro h
    have hemp : pySplit "" = [] := by decide
    rw [h, hemp] at hsplit
    exact List.noConfusion hsplit
  have hset1 : pyListSet st.fontsInUse (st.selectedChannel - 1) st.activeSoundFontId
      = some (st.fontsInUse.set (st.selectedChannel - 1).toNat st.activeSoundFontId) :=
    pyListSet_inrange st.fontsInUse (st.selectedChannel - 1)
      st.activeSoundFontId (by omega) (by rw [hfu]; omega)
  have hset2 : pyListSet st.instrumentsInUse (st.selectedChannel - 1) name
      = some (st.instrumentsInUse.set (st.selectedChannel - 1).toNat name) :=
    pyListSet_inrange st.instrumentsInUse (st.selectedChannel - 1)
      name (by omega) (by rw [hiu]; omega)
  unfold setInstrument
  rw [if_neg hne, if_neg (not_lt.mpr hactive)]
  simp only [hsplit, hdash, hset1, hset2, getSelectedChannel0]

/-- Closed instance of the C2 theorem: `selectInstrument("000-012 Trumpet")`
with active bank id 4 and selected channel 3 sends `select 2 4 000 012`. -/
theorem selectInstrument_compose_witness :
    (setInstrument { initState with activeSoundFontId := 4, selectedChannel := 3 }
        "000-012 Trumpet").cmds = ["select 2 4 000 012"] := by
  rw [selectInstrument_compose { initState with activeSoundFontId := 4, selectedChannel := 3 }
    "000-012 Trumpet" "000-012" "000" "012" ["Trumpet"] []
    (by decide) (by decide) (by decide) (by decide) (by decide) (by decide) (by decide)]
  decide

/-- C3: `unloadSoundFonts` never sends an `unload` for, nor removes from
the local bank map, an id present in any channel slot; every `unload` it
sends names an id absent from every channel slot. -/
theorem unloadUnreferenced_safe (st : ApiState) (fontsResponse : String) :
    (∀ id ∈ st.fontsInUse, ∀ e ∈ (unloadSoundFonts st fontsResponse).cmds, e.1 ≠ id) ∧
    (∀ id ∈ st.fontsInUse, dictHas st.fontFilesLoaded id = true →
      dictHas (unloadSoundFonts st fontsResponse).st.fontFilesLoaded id = true) ∧
    (∀ e ∈ (unloadSoundFonts st fontsResponse).cmds,
      e.2 = "unload " ++ toString e.1 ∧ e.1 ∉ st.fontsInUse) := by
  have h := unloadLoop_spec st.fontsInUse (getSoundFonts fontsResponse) st.fontFilesLoaded
  exact ⟨h.1, h.2.1, h.2.2⟩

/-- Closed instance of the C3 theorem: with bank 1 assigned to channel 1
and banks 1 and 2 listed by the engine, bank 1 survives in the map. -/
theorem unloadUnreferenced_safe_witness :
    dictHas (unloadSoundFonts
      { initState with
          fontFilesLoaded := [(1, "a.sf2"), (2, "b.sf2")]
          fontsInUse := 1 :: List.replicate 15 (-1) }
      " 1  a.sf2\n 2  b.sf2").st.fontFilesLoaded 1 = true :=
  (unloadUnreferenced_safe
    { initState with
        fontFilesLoaded := [(1, "a.sf2"), (2, "b.sf2")]
        fontsInUse := 1 :: List.replicate 15 (-1) }
    " 1  a.sf2\n 2  b.sf2").2.1 1 (by decide) (by decide)

/-- C6: the blocking read loop performs at most 1,000,000 reads whatever
the peer sends; sentinel matching is against the cumulative buffer, so a
sentinel split across two reads is found (`"hello\n"` then `".\nrest"`
yields `"hello"`); and when the timeout fires before the sentinel appears
the data accumulated so far is returned. -/
theorem transact_read_bounded :
    (∀ chunks, (readSocket chunks).2 ≤ 1000000) ∧
    readSocket ["hello\n".toList, ".\nrest".toList] = ("hello".toList, 2) ∧
    (∀ chunks, chunks.length ≤ 1000000 →
      findSub eofMarker chunks.flatten = none →
      readSocket chunks = (chunks.flatten, chunks.length)) := by
  refine ⟨?_, by decide, ?_⟩
  · intro chunks
    exact readLoop_reads_le 1000000 chunks []
  · intro chunks hlen hnone
    have h := readLoop_no_sentinel chunks 1000000 [] hlen (by simpa using hnone)
    simpa [readSocket] using h

/-- Closed instance of the C6 theorem: a sentinel-free stream is returned
as accumulated after the timeout. -/
theorem transact_read_bounded_witness :
    readSocket ["partial data".toList] = (["partial data".toList].flatten, 1) :=
  transact_read_bounded.2.2 ["partial data".toList] (by decide) (by decide)

/-- C7 counterexample: with an active bank (id 0) and the nonempty
descriptor `"junk"` (no `-` in its leading token), `setInstrument` still
fails — so "fails exactly when the descriptor is empty or no bank is
active" is false as stated. -/
theorem selectInstrument_error_counterexample :
    (setInstrument { initState with activeSoundFontId := 0 } "junk").res
        = SetInstrResult.failed ∧
    ¬ (("junk" : String) = "" ∨
        ({ initState with activeSoundFontId := 0 } : ApiState).activeSoundFontId < 0) := by
  decide

/-- C7 (amended): an empty descriptor or an inactive bank always makes
`setInstrument` fail (blank-name exception, resp. `''` return), and on
those failures no state is mutated and no command is sent; such failures
are sufficient but not necessary — a malformed nonempty descriptor also
fails. -/
theorem selectInstrument_error_cases (st : ApiState) (name : String) :
    (name = "" → setInstrument st name = { res := .raised, st := st, cmds := [] }) ∧
    (name ≠ "" → st.activeSoundFontId < 0 →
      setInstrument st name = { res := .emptyStr, st := st, cmds := [] }) := by
  constructor
  · intro h
    simp [setInstrument, h]
  · intro h1 h2
    simp [setInstrument, h1, h2]

/-- Closed instance of the amended C7 theorem: in the initial state (no
active bank) a selection fails and changes nothing. -/
theorem selectInstrument_error_cases_witness :
    setInstrument initState "000-000 X" =
      { res := SetInstrResult.emptyStr, st := initState, cmds := [] } :=
  (selectInstrument_error_cases initState "000-000 X").2 (by decide) (by decide)

/-- C8 counterexample: load bank 1, run `unloadSoundFonts` while no channel
references it (removing it from the map), then select an instrument — the
selection writes bank id 1 into channel slot 0 although 1 is no longer a
key of the loaded-bank map, refuting the invariant for sequences that
include `unloadUnreferenced`. -/
theorem channel_bank_invariant_counterexample :
    ¬ (∀ id ∈ (run initState [Op.load "a.sf2" "loaded SoundFont has ID 1",
          Op.unload " 1  a.sf2", Op.select "000-000 X"]).fontsInUse,
        id = -1 ∨
          dictHas (run initState [Op.load "a.sf2" "loaded SoundFont has ID 1",
            Op.unload " 1  a.sf2", Op.select "000-000 X"]).fontFilesLoaded id = true) := by
  decide

/-- C8 (amended): after any sequence of `loadSoundFont` and `setInstrument`
calls from the initial state — no interleaved `unloadSoundFonts` — every
channel slot's bank id is −1 or a key of the loaded-bank map. -/
theorem channel_bank_invariant (ops : List Op)
    (h : ∀ op ∈ ops, Op.isUnload op = false) :
    ∀ id ∈ (run initState ops).fontsInUse,
      id = -1 ∨ dictHas (run initState ops).fontFilesLoaded id = true := by
  have hinit1 : BankInv initState := by
    intro id hid
    left
    have : id ∈ List.replicate 16 (-1 : Int) := hid
    exact (List.eq_of_mem_replicate this)
  have hinit2 : CursorInv initState := Or.inl rfl
  exact (run_preserves_inv ops h initState hinit1 hinit2).1

/-- Closed instance of the amended C8 theorem after one load and one
selection. -/
theorem channel_bank_invariant_witness :
    (1 : Int) = -1 ∨
      dictHas (run initState [Op.load "a.sf2" "loaded SoundFont has ID 1",
        Op.select "000-000 X"]).fontFilesLoaded 1 = true :=
  channel_bank_invariant
    [Op.load "a.sf2" "loaded SoundFont has ID 1", Op.select "000-000 X"]
    (by decide) 1 (by decide)
